import Mathlib

/-!
Verification development for the libnx BSD-sockets IPC client
(`nx/source/services/bsd.c`).

The file shallowly embeds the marshaling layer of that translation unit:

* the descriptor lists accumulated on an `IpcCommand` by the `ipcAdd*`
  helpers (four lists, one per helper, each in call order);
* the reply-decoding helpers `_bsdDispatchBasicCommand` and
  `_bsdDispatchCommandWithOutAddrlen` (the transport outcome — a libnx
  `Result` plus the raw reply words — is passed in explicitly);
* the per-operation command builders that the claims under scrutiny
  concern (`_bsdNameGetterCommand`, `bsdSelect`, `bsdPoll`, `bsdRecvFrom`,
  `bsdIoctl_v`, `bsdFnctl_v`);
* `_bsdGetTransferMemSizeForConfig`, whose `u32` arithmetic is modelled
  with explicit `% 2 ^ 32` reductions.

Machine integers are modelled as `Nat` (unsigned quantities, addresses,
sizes) and `Int` (C `int` scalars).  `sizeof` values of platform structs
that live outside this translation unit (`fd_set`, `struct pollfd`,
`struct ifconf`, `struct ifmediareq`) are taken as explicit parameters,
so every statement below holds for any platform instantiation.
-/

set_option autoImplicit false
set_option linter.unnecessarySeqFocus false

namespace LibnxBsd

/-- One buffer descriptor as registered by an `ipcAdd*` call: base address,
byte length, and the trailing index/flags argument of the call. -/
structure BufDesc where
  addr : Nat
  size : Nat
  index : Nat
deriving DecidableEq

/-- The descriptor lists accumulated on an IPC command by the `ipcAdd*`
helpers of `ipc.h`, each list in call order. -/
structure IpcCommand where
  sendBuffers : List BufDesc
  sendStatics : List BufDesc
  recvBuffers : List BufDesc
  recvStatics : List BufDesc
deriving DecidableEq

/-- `ipcInitialize(&c)`: a command with no descriptors yet. -/
def ipcInitialize : IpcCommand := ⟨[], [], [], []⟩

/-- `ipcAddSendBuffer(&c, addr, size, index)`. -/
def ipcAddSendBuffer (c : IpcCommand) (addr size index : Nat) : IpcCommand :=
  { c with sendBuffers := c.sendBuffers ++ [⟨addr, size, index⟩] }

/-- `ipcAddSendStatic(&c, addr, size, index)`. -/
def ipcAddSendStatic (c : IpcCommand) (addr size index : Nat) : IpcCommand :=
  { c with sendStatics := c.sendStatics ++ [⟨addr, size, index⟩] }

/-- `ipcAddRecvBuffer(&c, addr, size, index)`. -/
def ipcAddRecvBuffer (c : IpcCommand) (addr size index : Nat) : IpcCommand :=
  { c with recvBuffers := c.recvBuffers ++ [⟨addr, size, index⟩] }

/-- `ipcAddRecvStatic(&c, addr, size, index)`. -/
def ipcAddRecvStatic (c : IpcCommand) (addr size index : Nat) : IpcCommand :=
  { c with recvStatics := c.recvStatics ++ [⟨addr, size, index⟩] }

/-- Every logical buffer parameter is described by one dynamic descriptor
and one static-fallback descriptor of the same memory, length and
direction: with per-helper lists in call order this is exactly the
statement that the dynamic and static lists coincide per direction. -/
abbrev pairedDescriptors (c : IpcCommand) : Prop :=
  c.sendBuffers = c.sendStatics ∧ c.recvBuffers = c.recvStatics

/-- The `SFCI` protocol magic placed at the head of every request. -/
def SFCI_MAGIC : Nat := 0x49434653

/-- `EPIPE` as defined by the C library headers the file compiles against. -/
def EPIPE : Int := 32

/-- The common reply header `{u64 magic; u64 result; int ret; int errno_;}`
(the magic word plays no role in decoding and is omitted).  `result` is a
libnx `Result`; `result = 0` means success. -/
structure BsdIpcResponseBase where
  result : Nat
  ret : Int
  errno_ : Int
deriving DecidableEq

/-- Outcome of a dispatch helper: the returned value, the final value of
the global `errno`, and whether the reply buffer was parsed (`ipcParse`
reached and its output stored through `rOut`). -/
structure DispatchResult where
  ret : Int
  errno : Int
  parsed : Bool
deriving DecidableEq

/-- `_bsdDispatchBasicCommand` (bsd.c lines 142-167).  `rc` is the
`Result` of `serviceIpcDispatch` (`0` = success) and `resp` the decoded
reply header, read only when the dispatch succeeded. -/
def _bsdDispatchBasicCommand (rc : Nat) (resp : BsdIpcResponseBase) : DispatchResult :=
  if rc = 0 then
    if resp.result = 0 then ⟨resp.ret, resp.errno_, true⟩
    else ⟨-1, EPIPE, true⟩
  else ⟨-1, EPIPE, false⟩

/-- A reply carrying the trailing `socklen_t addrlen` scalar after the
common header. -/
structure BsdIpcResponseWithAddrlen where
  base : BsdIpcResponseBase
  addrlen : Nat
deriving DecidableEq

/-- Outcome of `_bsdDispatchCommandWithOutAddrlen`: returned value, final
`errno`, and the final contents of the caller's `socklen_t` cell
(`none` when the caller passed `NULL`). -/
structure DispatchResultAddrlen where
  ret : Int
  errno : Int
  addrlenOut : Option Nat
deriving DecidableEq

/-- `_bsdDispatchCommandWithOutAddrlen` (bsd.c lines 169-182).  The
caller's address-length cell is modelled by `addrlen : Option Nat`
(`none` = `NULL` pointer, `some v` = points to a cell holding `v`). -/
def _bsdDispatchCommandWithOutAddrlen (rc : Nat) (resp : BsdIpcResponseWithAddrlen)
    (addrlen : Option Nat) : DispatchResultAddrlen :=
  let d := _bsdDispatchBasicCommand rc resp.base
  if d.ret ≠ -1 ∧ addrlen ≠ none then ⟨d.ret, d.errno, some resp.addrlen⟩
  else ⟨d.ret, d.errno, addrlen⟩

/-- Raw header `{u64 magic; u64 cmd_id; int sockfd;}` of the name-getter
commands (accept / getpeername / getsockname). -/
structure RawNameGetter where
  magic : Nat
  cmd_id : Nat
  sockfd : Int
deriving DecidableEq

/-- Command built by `_bsdNameGetterCommand` (bsd.c lines 184-206):
one receive buffer + one receive static for the address output, with
declared capacity `*addrlen` (or `0` when `addrlen` is `NULL`). -/
def _bsdNameGetterCmd (cmd_id : Nat) (sockfd : Int) (addr : Nat) (addrlen : Option Nat) :
    IpcCommand × RawNameGetter :=
  let maxaddrlen := match addrlen with
    | none => 0
    | some v => v
  let c := ipcInitialize
  let c := ipcAddRecvBuffer c addr maxaddrlen 0
  let c := ipcAddRecvStatic c addr maxaddrlen 0
  (c, ⟨SFCI_MAGIC, cmd_id, sockfd⟩)

/-- `_bsdNameGetterCommand` (bsd.c lines 184-206): builds the command and
decodes the reply through `_bsdDispatchCommandWithOutAddrlen`. -/
def _bsdNameGetterCommand (cmd_id : Nat) (sockfd : Int) (addr : Nat) (addrlen : Option Nat)
    (rc : Nat) (resp : BsdIpcResponseWithAddrlen) :
    (IpcCommand × RawNameGetter) × DispatchResultAddrlen :=
  (_bsdNameGetterCmd cmd_id sockfd addr addrlen,
   _bsdDispatchCommandWithOutAddrlen rc resp addrlen)

/-- `bsdAccept` (cmd 12). -/
def bsdAccept (sockfd : Int) (addr : Nat) (addrlen : Option Nat) (rc : Nat)
    (resp : BsdIpcResponseWithAddrlen) :=
  _bsdNameGetterCommand 12 sockfd addr addrlen rc resp

/-- `bsdGetPeerName` (cmd 15). -/
def bsdGetPeerName (sockfd : Int) (addr : Nat) (addrlen : Option Nat) (rc : Nat)
    (resp : BsdIpcResponseWithAddrlen) :=
  _bsdNameGetterCommand 15 sockfd addr addrlen rc resp

/-- `bsdGetSockName` (cmd 16). -/
def bsdGetSockName (sockfd : Int) (addr : Nat) (addrlen : Option Nat) (rc : Nat)
    (resp : BsdIpcResponseWithAddrlen) :=
  _bsdNameGetterCommand 16 sockfd addr addrlen rc resp

/-- C2: if the transport dispatch itself fails (`rc ≠ 0`), the operation
returns `-1` with `errno = EPIPE`, for every reply content `resp`, and the
reply buffer is not parsed. -/
theorem dispatch_transport_failure (rc : Nat) (resp : BsdIpcResponseBase) (h : rc ≠ 0) :
    _bsdDispatchBasicCommand rc resp = ⟨-1, EPIPE, false⟩ := by
  unfold _bsdDispatchBasicCommand
  rw [if_neg h]

/-- Witness for C2 at the concrete failed result `1` and an arbitrary
reply word content. -/
theorem dispatch_transport_failure_witness :
    _bsdDispatchBasicCommand 1 ⟨0, 0, 0⟩ = ⟨-1, EPIPE, false⟩ :=
  dispatch_transport_failure 1 ⟨0, 0, 0⟩ (by decide)

/-- C3: if the transport dispatch succeeds (`rc = 0`), the reply status is
success and the embedded return value is `-1`, the operation returns `-1`
with `errno` equal to the reply's embedded errno field (the `EPIPE`
branch is not taken), and the reply is parsed. -/
theorem dispatch_posix_failure (resp : BsdIpcResponseBase)
    (h0 : resp.result = 0) (h1 : resp.ret = -1) :
    _bsdDispatchBasicCommand 0 resp = ⟨-1, resp.errno_, true⟩ := by
  unfold _bsdDispatchBasicCommand
  rw [if_pos rfl, if_pos h0, h1]

/-- Witness for C3: reply with status success, return value `-1`,
errno `11` (`EAGAIN`). -/
theorem dispatch_posix_failure_witness :
    _bsdDispatchBasicCommand 0 ⟨0, -1, 11⟩ = ⟨-1, 11, true⟩ :=
  dispatch_posix_failure ⟨0, -1, 11⟩ rfl rfl

/-- C7: for the name-getter operations (accept, getpeername, getsockname,
and every operation decoding through `_bsdDispatchCommandWithOutAddrlen`),
the caller's address-length cell is overwritten (with the reply's trailing
addrlen scalar) exactly when the primary return value is not `-1` and the
caller passed a non-null pointer; otherwise it is left unchanged. -/
theorem addrlen_written_iff (rc : Nat) (resp : BsdIpcResponseWithAddrlen)
    (a : Option Nat) (cmd_id : Nat) (sockfd : Int) (addr : Nat) :
    ((_bsdNameGetterCommand cmd_id sockfd addr a rc resp).2 =
        _bsdDispatchCommandWithOutAddrlen rc resp a) ∧
      (((_bsdDispatchBasicCommand rc resp.base).ret ≠ -1 ∧ a ≠ none) →
        _bsdDispatchCommandWithOutAddrlen rc resp a =
          ⟨(_bsdDispatchBasicCommand rc resp.base).ret,
           (_bsdDispatchBasicCommand rc resp.base).errno, some resp.addrlen⟩) ∧
      (¬ ((_bsdDispatchBasicCommand rc resp.base).ret ≠ -1 ∧ a ≠ none) →
        _bsdDispatchCommandWithOutAddrlen rc resp a =
          ⟨(_bsdDispatchBasicCommand rc resp.base).ret,
           (_bsdDispatchBasicCommand rc resp.base).errno, a⟩) := by
  refine ⟨rfl, ?_, ?_⟩ <;> intro h <;> unfold _bsdDispatchCommandWithOutAddrlen
  · rw [if_pos h]
  · rw [if_neg h]

/-- Witness for C7: a successful `getsockname`-shaped decode (return `3`,
non-null cell holding `16`) stores the reply's addrlen `8`. -/
theorem addrlen_written_iff_witness :
    _bsdDispatchCommandWithOutAddrlen 0 ⟨⟨0, 3, 0⟩, 8⟩ (some 16) = ⟨3, 0, some 8⟩ :=
  (addrlen_written_iff 0 ⟨⟨0, 3, 0⟩, 8⟩ (some 16) 16 0 0).2.1 (by decide)

/-- The `BsdBufferConfig` record (`u32` fields in the C header; modelled as
`Nat`, with `u32` reduction applied at each arithmetic step of the size
computation exactly where the C performs it). -/
structure BsdBufferConfig where
  version : Nat
  tcp_tx_buf_size : Nat
  tcp_rx_buf_size : Nat
  tcp_tx_buf_max_size : Nat
  tcp_rx_buf_max_size : Nat
  udp_tx_buf_size : Nat
  udp_rx_buf_size : Nat
  sb_efficiency : Nat
deriving DecidableEq

/-- `g_defaultBsdBufferConfig` (bsd.c lines 31-43). -/
def g_defaultBsdBufferConfig : BsdBufferConfig :=
  ⟨1, 0x8000, 0x10000, 0x40000, 0x40000, 0x2400, 0xA500, 4⟩

/-- The `u32` wrap modulus. -/
def U32LIM : Nat := 4294967296

/-- `_bsdGetTransferMemSizeForConfig` (bsd.c lines 50-58).  All three
intermediate values (`tcp_tx_buf_max_size`, `tcp_rx_buf_max_size`, `sum`)
are C `u32` locals, and the final product is computed in `unsigned int`
before being cast to `size_t`, hence the `% U32LIM` reductions.  The page
round-up is the source's `((sum + 0xFFF) >> 12) << 12`. -/
def _bsdGetTransferMemSizeForConfig (config : BsdBufferConfig) : Nat :=
  let tcp_tx_buf_max_size :=
    if config.tcp_tx_buf_max_size ≠ 0 then config.tcp_tx_buf_max_size
    else config.tcp_tx_buf_size
  let tcp_rx_buf_max_size :=
    if config.tcp_rx_buf_max_size ≠ 0 then config.tcp_rx_buf_max_size
    else config.tcp_rx_buf_size
  let sum := (tcp_tx_buf_max_size + tcp_rx_buf_max_size
      + config.udp_tx_buf_size + config.udp_rx_buf_size) % U32LIM
  let sum2 := ((sum + 0xFFF) % U32LIM) >>> 12 <<< 12
  (config.sb_efficiency * sum2) % U32LIM

/-- Rounding up to the next multiple of the page size (4096), in exact
arithmetic — the spec's `roundUpToPage`. -/
def roundUpToPage (n : Nat) : Nat := (n + 4095) / 4096 * 4096

/-- The spec's effective TCP send size: `tcpTxMax`, or `tcpTx` if the
maximum is zero. -/
def specEffectiveTcpTx (c : BsdBufferConfig) : Nat :=
  if c.tcp_tx_buf_max_size = 0 then c.tcp_tx_buf_size else c.tcp_tx_buf_max_size

/-- The spec's effective TCP receive size. -/
def specEffectiveTcpRx (c : BsdBufferConfig) : Nat :=
  if c.tcp_rx_buf_max_size = 0 then c.tcp_rx_buf_size else c.tcp_rx_buf_max_size

/-- The spec's pre-rounding sum. -/
def specSum (c : BsdBufferConfig) : Nat :=
  specEffectiveTcpTx c + specEffectiveTcpRx c + c.udp_tx_buf_size + c.udp_rx_buf_size

/-- The reference formula of spec §4.1, in exact (unbounded) arithmetic:
effective TCP sizes plus UDP sizes, rounded up to the next page multiple,
scaled by the efficiency factor. -/
def computeTransferMemorySizeSpec (c : BsdBufferConfig) : Nat :=
  c.sb_efficiency * roundUpToPage (specSum c)

/-- No step of the `u32` computation wraps: the rounded-up sum and the
final product both fit in 32 bits. -/
abbrev NoOverflow (c : BsdBufferConfig) : Prop :=
  specSum c + 0xFFF < U32LIM ∧
    c.sb_efficiency * roundUpToPage (specSum c) < U32LIM

theorem shiftRound_eq (x : Nat) : x >>> 12 <<< 12 = x / 4096 * 4096 := by
  rw [Nat.shiftRight_eq_div_pow, Nat.shiftLeft_eq]

theorem u32_pipeline (e s : Nat) (h1 : s + 4095 < U32LIM) (h2 : e * roundUpToPage s < U32LIM) :
    (e * (((s + 4095) % U32LIM) >>> 12 <<< 12)) % U32LIM = e * roundUpToPage s := by
  rw [Nat.mod_eq_of_lt h1, shiftRound_eq]
  unfold roundUpToPage at *
  rw [Nat.mod_eq_of_lt h2]

theorem tmem_eq_of_noOverflow (c : BsdBufferConfig) (h : NoOverflow c) :
    _bsdGetTransferMemSizeForConfig c = computeTransferMemorySizeSpec c := by
  obtain ⟨h1, h2⟩ := h
  have estep : _bsdGetTransferMemSizeForConfig c
      = (c.sb_efficiency * (((specSum c + 4095) % U32LIM) >>> 12 <<< 12)) % U32LIM := by
    simp only [_bsdGetTransferMemSizeForConfig, specSum, specEffectiveTcpTx, specEffectiveTcpRx]
    by_cases htx : c.tcp_tx_buf_max_size = 0 <;>
      by_cases hrx : c.tcp_rx_buf_max_size = 0 <;> simp [htx, hrx, Nat.mod_add_mod]
  rw [estep, u32_pipeline c.sb_efficiency (specSum c) (by omega) h2]
  rfl

/-- Counterexample to C4 as stated: a configuration whose field values are
legitimate `u32` values but whose sum wraps at 32 bits, so the computed
size (0) differs from the exact reference formula (2^32). -/
def cOverflow : BsdBufferConfig := ⟨1, 0, 0, 0x80000000, 0x80000000, 0, 0, 1⟩

/-- C4 counterexample: at `cOverflow` the code's result differs from the
reference formula taken in exact arithmetic. -/
theorem tmem_size_spec_mismatch :
    _bsdGetTransferMemSizeForConfig cOverflow ≠ computeTransferMemorySizeSpec cOverflow := by
  decide

/-- C4 (amended): when no step wraps at 32 bits the computed
transfer-memory size equals the reference formula, and for the documented
default configuration it equals
`4 * roundUpToPage (0x40000 + 0x40000 + 0x2400 + 0xA500)`. -/
theorem tmem_size_formula (c : BsdBufferConfig) (h : NoOverflow c) :
    _bsdGetTransferMemSizeForConfig c = computeTransferMemorySizeSpec c ∧
      _bsdGetTransferMemSizeForConfig g_defaultBsdBufferConfig
        = 4 * roundUpToPage (0x40000 + 0x40000 + 0x2400 + 0xA500) :=
  ⟨tmem_eq_of_noOverflow c h, by decide⟩

/-- Witness for C4 at the default configuration. -/
theorem tmem_size_formula_witness :
    _bsdGetTransferMemSizeForConfig g_defaultBsdBufferConfig
        = computeTransferMemorySizeSpec g_defaultBsdBufferConfig ∧
      _bsdGetTransferMemSizeForConfig g_defaultBsdBufferConfig
        = 4 * roundUpToPage (0x40000 + 0x40000 + 0x2400 + 0xA500) :=
  tmem_size_formula g_defaultBsdBufferConfig (by decide)

/-- The default configuration with the TCP send maximum cleared: the
zero sentinel makes the base size `0x8000` effective. -/
def cMaxZero : BsdBufferConfig := ⟨1, 0x8000, 0x10000, 0, 0x40000, 0x2400, 0xA500, 4⟩

/-- `cMaxZero` with the TCP send maximum raised from `0` to `1`: the
effective send size drops from `0x8000` to `1`. -/
def cMaxOne : BsdBufferConfig := ⟨1, 0x8000, 0x10000, 1, 0x40000, 0x2400, 0xA500, 4⟩

/-- C5 counterexample: `cMaxZero` and `cMaxOne` agree on every field
except `tcp_tx_buf_max_size`, where `cMaxOne` is strictly larger, yet the
computed transfer-memory size strictly decreases (no 32-bit overflow is
involved). -/
theorem tmem_size_not_monotone :
    cMaxZero.version = cMaxOne.version ∧
      cMaxZero.tcp_tx_buf_size = cMaxOne.tcp_tx_buf_size ∧
      cMaxZero.tcp_rx_buf_size = cMaxOne.tcp_rx_buf_size ∧
      cMaxZero.tcp_rx_buf_max_size = cMaxOne.tcp_rx_buf_max_size ∧
      cMaxZero.udp_tx_buf_size = cMaxOne.udp_tx_buf_size ∧
      cMaxZero.udp_rx_buf_size = cMaxOne.udp_rx_buf_size ∧
      cMaxZero.sb_efficiency = cMaxOne.sb_efficiency ∧
      cMaxZero.tcp_tx_buf_max_size < cMaxOne.tcp_tx_buf_max_size ∧
      _bsdGetTransferMemSizeForConfig cMaxOne < _bsdGetTransferMemSizeForConfig cMaxZero := by
  decide

theorem specSum_set_version (c : BsdBufferConfig) (v : Nat) :
    specSum { c with version := v } = specSum c := rfl

theorem specSum_set_tx (c : BsdBufferConfig) (v : Nat) (hv : c.tcp_tx_buf_size ≤ v) :
    specSum c ≤ specSum { c with tcp_tx_buf_size := v } := by
  unfold specSum specEffectiveTcpTx specEffectiveTcpRx
  by_cases htx : c.tcp_tx_buf_max_size = 0 <;> simp [htx] <;> omega

theorem specSum_set_rx (c : BsdBufferConfig) (v : Nat) (hv : c.tcp_rx_buf_size ≤ v) :
    specSum c ≤ specSum { c with tcp_rx_buf_size := v } := by
  unfold specSum specEffectiveTcpTx specEffectiveTcpRx
  by_cases hrx : c.tcp_rx_buf_max_size = 0 <;> simp [hrx] <;> omega

theorem specSum_set_txmax (c : BsdBufferConfig) (v : Nat)
    (hv : c.tcp_tx_buf_max_size ≤ v)
    (hs : c.tcp_tx_buf_max_size ≠ 0 ∨ c.tcp_tx_buf_size ≤ v) :
    specSum c ≤ specSum { c with tcp_tx_buf_max_size := v } := by
  unfold specSum specEffectiveTcpTx specEffectiveTcpRx
  by_cases hz : c.tcp_tx_buf_max_size = 0 <;> by_cases hv0 : v = 0 <;>
    simp [hz, hv0] <;> rcases hs with h | h <;> omega

theorem specSum_set_rxmax (c : BsdBufferConfig) (v : Nat)
    (hv : c.tcp_rx_buf_max_size ≤ v)
    (hs : c.tcp_rx_buf_max_size ≠ 0 ∨ c.tcp_rx_buf_size ≤ v) :
    specSum c ≤ specSum { c with tcp_rx_buf_max_size := v } := by
  unfold specSum specEffectiveTcpTx specEffectiveTcpRx
  by_cases hz : c.tcp_rx_buf_max_size = 0 <;> by_cases hv0 : v = 0 <;>
    simp [hz, hv0] <;> rcases hs with h | h <;> omega

theorem specSum_set_udptx (c : BsdBufferConfig) (v : Nat) (hv : c.udp_tx_buf_size ≤ v) :
    specSum c ≤ specSum { c with udp_tx_buf_size := v } := by
  unfold specSum specEffectiveTcpTx specEffectiveTcpRx
  simp
  omega

theorem specSum_set_udprx (c : BsdBufferConfig) (v : Nat) (hv : c.udp_rx_buf_size ≤ v) :
    specSum c ≤ specSum { c with udp_rx_buf_size := v } := by
  unfold specSum specEffectiveTcpTx specEffectiveTcpRx
  simp
  omega

theorem specSum_set_eff (c : BsdBufferConfig) (v : Nat) :
    specSum { c with sb_efficiency := v } = specSum c := rfl

theorem tmem_mono_core (c c' : BsdBufferConfig) (h : NoOverflow c) (h' : NoOverflow c')
    (he : c.sb_efficiency ≤ c'.sb_efficiency) (hs : specSum c ≤ specSum c') :
    _bsdGetTransferMemSizeForConfig c ≤ _bsdGetTransferMemSizeForConfig c' := by
  rw [tmem_eq_of_noOverflow c h, tmem_eq_of_noOverflow c' h']
  unfold computeTransferMemorySizeSpec roundUpToPage
  exact Nat.mul_le_mul he (mul_le_mul_right' (Nat.div_le_div_right (by omega)) 4096)

/-- C5 (amended): the computed transfer-memory size is monotonic
non-decreasing in every single-field increase, provided no step of either
computation wraps at 32 bits and, for the two optional maximum fields, the
increase does not cross the zero sentinel (meaning "use the base size")
into a nonzero value smaller than the base size. -/
theorem tmem_size_mono (c : BsdBufferConfig) (v : Nat) :
    (c.version ≤ v → NoOverflow c → NoOverflow { c with version := v } →
      _bsdGetTransferMemSizeForConfig c
        ≤ _bsdGetTransferMemSizeForConfig { c with version := v }) ∧
    (c.tcp_tx_buf_size ≤ v → NoOverflow c → NoOverflow { c with tcp_tx_buf_size := v } →
      _bsdGetTransferMemSizeForConfig c
        ≤ _bsdGetTransferMemSizeForConfig { c with tcp_tx_buf_size := v }) ∧
    (c.tcp_rx_buf_size ≤ v → NoOverflow c → NoOverflow { c with tcp_rx_buf_size := v } →
      _bsdGetTransferMemSizeForConfig c
        ≤ _bsdGetTransferMemSizeForConfig { c with tcp_rx_buf_size := v }) ∧
    (c.tcp_tx_buf_max_size ≤ v → (c.tcp_tx_buf_max_size ≠ 0 ∨ c.tcp_tx_buf_size ≤ v) →
      NoOverflow c → NoOverflow { c with tcp_tx_buf_max_size := v } →
      _bsdGetTransferMemSizeForConfig c
        ≤ _bsdGetTransferMemSizeForConfig { c with tcp_tx_buf_max_size := v }) ∧
    (c.tcp_rx_buf_max_size ≤ v → (c.tcp_rx_buf_max_size ≠ 0 ∨ c.tcp_rx_buf_size ≤ v) →
      NoOverflow c → NoOverflow { c with tcp_rx_buf_max_size := v } →
      _bsdGetTransferMemSizeForConfig c
        ≤ _bsdGetTransferMemSizeForConfig { c with tcp_rx_buf_max_size := v }) ∧
    (c.udp_tx_buf_size ≤ v → NoOverflow c → NoOverflow { c with udp_tx_buf_size := v } →
      _bsdGetTransferMemSizeForConfig c
        ≤ _bsdGetTransferMemSizeForConfig { c with udp_tx_buf_size := v }) ∧
    (c.udp_rx_buf_size ≤ v → NoOverflow c → NoOverflow { c with udp_rx_buf_size := v } →
      _bsdGetTransferMemSizeForConfig c
        ≤ _bsdGetTransferMemSizeForConfig { c with udp_rx_buf_size := v }) ∧
    (c.sb_efficiency ≤ v → NoOverflow c → NoOverflow { c with sb_efficiency := v } →
      _bsdGetTransferMemSizeForConfig c
        ≤ _bsdGetTransferMemSizeForConfig { c with sb_efficiency := v }) := by
  refine ⟨?_, ?_, ?_, ?_, ?_, ?_, ?_, ?_⟩
  · intro _ hno hno'
    exact tmem_mono_core _ _ hno hno' le_rfl (le_of_eq (specSum_set_version c v).symm)
  · intro hv hno hno'
    exact tmem_mono_core _ _ hno hno' le_rfl (specSum_set_tx c v hv)
  · intro hv hno hno'
    exact tmem_mono_core _ _ hno hno' le_rfl (specSum_set_rx c v hv)
  · intro hv hs hno hno'
    exact tmem_mono_core _ _ hno hno' le_rfl (specSum_set_txmax c v hv hs)
  · intro hv hs hno hno'
    exact tmem_mono_core _ _ hno hno' le_rfl (specSum_set_rxmax c v hv hs)
  · intro hv hno hno'
    exact tmem_mono_core _ _ hno hno' le_rfl (specSum_set_udptx c v hv)
  · intro hv hno hno'
    exact tmem_mono_core _ _ hno hno' le_rfl (specSum_set_udprx c v hv)
  · intro hv hno hno'
    exact tmem_mono_core _ _ hno hno' hv (le_of_eq (specSum_set_eff c v).symm)

/-- Witness for C5: raising the default configuration's UDP send size from
`0x2400` to `0x2500` does not decrease the computed size. -/
theorem tmem_size_mono_witness :
    _bsdGetTransferMemSizeForConfig g_defaultBsdBufferConfig
      ≤ _bsdGetTransferMemSizeForConfig { g_defaultBsdBufferConfig with udp_tx_buf_size := 0x2500 } :=
  (tmem_size_mono g_defaultBsdBufferConfig 0x2500).2.2.2.2.2.1 (by decide) (by decide) (by decide)

/-- `struct timeval`. -/
structure Timeval where
  tv_sec : Int
  tv_usec : Int
deriving DecidableEq

/-- Raw header of `bsdSelect`: `{magic; cmd_id; int nfds; struct timeval
timeout; bool nullTimeout;}`.  The `timeout` field is `none` when the
source leaves it unwritten (`NULL` caller timeout). -/
structure RawSelect where
  magic : Nat
  cmd_id : Nat
  nfds : Int
  timeout : Option Timeval
  nullTimeout : Bool
deriving DecidableEq

/-- `bsdSelect` command construction (bsd.c lines 305-340).
`sizeof_fd_set` is the platform's `sizeof(fd_set)`. -/
def bsdSelectCommand (sizeof_fd_set : Nat) (nfds : Int)
    (readfds writefds exceptfds : Nat) (timeout : Option Timeval) :
    IpcCommand × RawSelect :=
  let c := ipcInitialize
  let c := ipcAddSendBuffer c readfds sizeof_fd_set 0
  let c := ipcAddSendStatic c readfds sizeof_fd_set 0
  let c := ipcAddSendBuffer c writefds sizeof_fd_set 0
  let c := ipcAddSendStatic c writefds sizeof_fd_set 0
  let c := ipcAddSendBuffer c exceptfds sizeof_fd_set 0
  let c := ipcAddSendStatic c exceptfds sizeof_fd_set 0
  let c := ipcAddRecvBuffer c readfds sizeof_fd_set 0
  let c := ipcAddRecvStatic c readfds sizeof_fd_set 0
  let c := ipcAddRecvBuffer c writefds sizeof_fd_set 0
  let c := ipcAddRecvStatic c writefds sizeof_fd_set 0
  let c := ipcAddRecvBuffer c exceptfds sizeof_fd_set 0
  let c := ipcAddRecvStatic c exceptfds sizeof_fd_set 0
  (c, ⟨SFCI_MAGIC, 5, nfds, timeout, timeout.isNone⟩)

/-- Raw header of `bsdPoll`: `{magic; cmd_id; nfds_t nfds; int timeout;}`
(`nfds_t` is unsigned). -/
structure RawPoll where
  magic : Nat
  cmd_id : Nat
  nfds : Nat
  timeout : Int
deriving DecidableEq

/-- `bsdPoll` command construction (bsd.c lines 342-367).  The source
passes `sizeof(struct pollfd)` — one element — as every descriptor
length, while `nfds` travels only in the raw header. -/
def bsdPollCommand (sizeof_pollfd : Nat) (fds : Nat) (nfds : Nat) (timeout : Int) :
    IpcCommand × RawPoll :=
  let c := ipcInitialize
  let c := ipcAddSendBuffer c fds sizeof_pollfd 0
  let c := ipcAddSendStatic c fds sizeof_pollfd 0
  let c := ipcAddRecvBuffer c fds sizeof_pollfd 0
  let c := ipcAddRecvStatic c fds sizeof_pollfd 0
  (c, ⟨SFCI_MAGIC, 6, nfds, timeout⟩)

/-- Raw header `{magic; cmd_id; int sockfd; int flags;}` shared by the
recv/recvfrom/send/sendto commands. -/
structure RawSockFlags where
  magic : Nat
  cmd_id : Nat
  sockfd : Int
  flags : Int
deriving DecidableEq

/-- `bsdRecvFrom` command construction (bsd.c lines 429-455).  Mirrors the
source's descriptor calls verbatim: the data buffer gets a receive buffer
plus a receive static, but the source-address output is registered with
`ipcAddRecvBuffer` twice (lines 437-438) and never with
`ipcAddRecvStatic`. -/
def bsdRecvFromCommand (sockfd : Int) (buf : Nat) (len : Nat) (flags : Int)
    (src_addr : Nat) (addrlen : Option Nat) : IpcCommand × RawSockFlags :=
  let inaddrlen := match addrlen with
    | none => 0
    | some v => v
  let c := ipcInitialize
  let c := ipcAddRecvBuffer c buf len 0
  let c := ipcAddRecvStatic c buf len 0
  let c := ipcAddRecvBuffer c src_addr inaddrlen 0
  let c := ipcAddRecvBuffer c src_addr inaddrlen 0
  (c, ⟨SFCI_MAGIC, 9, sockfd, flags⟩)

/-- `bsdRecvFrom` (command construction plus reply decoding through
`_bsdDispatchCommandWithOutAddrlen`). -/
def bsdRecvFrom (sockfd : Int) (buf : Nat) (len : Nat) (flags : Int)
    (src_addr : Nat) (addrlen : Option Nat) (rc : Nat)
    (resp : BsdIpcResponseWithAddrlen) :
    (IpcCommand × RawSockFlags) × DispatchResultAddrlen :=
  (bsdRecvFromCommand sockfd buf len flags src_addr addrlen,
   _bsdDispatchCommandWithOutAddrlen rc resp addrlen)

/-- C1 (evidence of the code defect): at a concrete `bsdRecvFrom` call the
source-address parameter is described by two dynamic receive descriptors
and by no receive static, so the dynamic and static receive lists do not
pair up — while e.g. `bsdSelect` builds fully paired lists.  The claimed
"one receive-buffer + one receive-static" pair for the source address is
exactly what lines 437-438 fail to produce. -/
theorem bsdRecvFrom_pairing_bug :
    (bsdRecvFromCommand 0 0x1000 16 0 0x2000 (some 16)).1.recvBuffers
        = [⟨0x1000, 16, 0⟩, ⟨0x2000, 16, 0⟩, ⟨0x2000, 16, 0⟩] ∧
      (bsdRecvFromCommand 0 0x1000 16 0 0x2000 (some 16)).1.recvStatics
        = [⟨0x1000, 16, 0⟩] ∧
      ¬ pairedDescriptors (bsdRecvFromCommand 0 0x1000 16 0 0x2000 (some 16)).1 ∧
      pairedDescriptors (bsdSelectCommand 8 4 0x10 0x20 0x30 none).1 ∧
      pairedDescriptors (_bsdNameGetterCmd 16 0 0x2000 (some 16)).1 := by
  decide

/-- C10: for every `nfds`, `bsdPoll` attaches its four descriptors (send
buffer/static, receive buffer/static) for the `pollfd` array with declared
length exactly `sizeof(struct pollfd)` — one element — independent of
`nfds`, while `nfds` itself is sent as a scalar in the raw header. -/
theorem bsdPoll_single_element (sizeof_pollfd : Nat) (fds : Nat) (nfds : Nat) (timeout : Int) :
    (bsdPollCommand sizeof_pollfd fds nfds timeout).1.sendBuffers
        = [⟨fds, sizeof_pollfd, 0⟩] ∧
      (bsdPollCommand sizeof_pollfd fds nfds timeout).1.sendStatics
        = [⟨fds, sizeof_pollfd, 0⟩] ∧
      (bsdPollCommand sizeof_pollfd fds nfds timeout).1.recvBuffers
        = [⟨fds, sizeof_pollfd, 0⟩] ∧
      (bsdPollCommand sizeof_pollfd fds nfds timeout).1.recvStatics
        = [⟨fds, sizeof_pollfd, 0⟩] ∧
      (bsdPollCommand sizeof_pollfd fds nfds timeout).2.nfds = nfds :=
  ⟨rfl, rfl, rfl, rfl, rfl⟩

/-- The caller-owned `struct ifconf` header as read by the `SIOCGIFCONF`
case: its own address (the `va_arg` pointer), the embedded byte count
`ifc_len`, and the embedded pointer `ifc_req`. -/
structure Ifconf where
  addr : Nat
  ifc_len : Nat
  ifc_req : Nat
deriving DecidableEq

/-- The caller-owned `struct ifmediareq` header as read by the
`SIOCGIFMEDIA` / `SIOCGIFXMEDIA` cases: its own address, the embedded
entry count `ifm_count`, and the embedded pointer `ifm_ulist`. -/
structure Ifmediareq where
  addr : Nat
  ifm_count : Nat
  ifm_ulist : Nat
deriving DecidableEq

/-- The variadic argument of `bsdIoctl_v`, tagged by the branch the
`switch (request)` selects.  The `generic` constructor carries the pointer
that `va_arg` would yield for the default branch. -/
inductive IoctlArg where
  | gifconf (data : Ifconf)
  | gifmedia (data : Ifmediareq)
  | gifxmedia (data : Ifmediareq)
  | generic (dataPtr : Nat)
deriving DecidableEq

/-- `IOC_OUT` of `sys/ioccom.h`: the request reads back data. -/
def IOC_OUT : Nat := 0x40000000

/-- `IOC_IN` of `sys/ioccom.h`: the request passes data in. -/
def IOC_IN : Nat := 0x80000000

/-- `IOC_INOUT = IOC_IN | IOC_OUT`. -/
def IOC_INOUT : Nat := IOC_IN ||| IOC_OUT

/-- `IOCPARM_LEN(x) = ((x >> 16) & IOCPARM_MASK)` with
`IOCPARM_MASK = 0x1fff`. -/
def IOCPARM_LEN (x : Nat) : Nat := (x >>> 16) &&& 0x1fff

/-- Raw header of `bsdIoctl_v`:
`{magic; cmd_id; int fd; int request; int bufcount;}`. -/
structure RawIoctl where
  magic : Nat
  cmd_id : Nat
  fd : Int
  request : Nat
  bufcount : Nat
deriving DecidableEq

/-- The `(pointer, size)` slots `(in1, in1sz) ... (out4, out4sz)` computed
by the `switch (request)` of `bsdIoctl_v` (bsd.c lines 611-659), plus
`bufcount`.  Slots 3 and 4 always stay `(NULL, 0)`. -/
def bsdIoctl_vSlots (sizeof_ifconf sizeof_ifmediareq : Nat) (request : Nat)
    (arg : IoctlArg) : (Nat × Nat) × (Nat × Nat) × (Nat × Nat) × (Nat × Nat) × Nat :=
  match arg with
  | .gifconf data =>
      ((data.addr, sizeof_ifconf), (data.ifc_req, data.ifc_len),
       (data.addr, sizeof_ifconf), (data.ifc_req, data.ifc_len), 2)
  | .gifmedia data =>
      ((data.addr, sizeof_ifmediareq), (data.ifm_ulist, 8 * data.ifm_count),
       (data.addr, sizeof_ifmediareq), (data.ifm_ulist, 8 * data.ifm_count), 2)
  | .gifxmedia data =>
      ((data.addr, sizeof_ifmediareq), (data.ifm_ulist, 8 * data.ifm_count),
       (data.addr, sizeof_ifmediareq), (data.ifm_ulist, 8 * data.ifm_count), 2)
  | .generic dataPtr =>
      let data : Nat := if request &&& IOC_INOUT = 0 then 0 else dataPtr
      let inSlot : Nat × Nat :=
        if request &&& IOC_IN = 0 then (0, 0) else (data, IOCPARM_LEN request)
      let outSlot : Nat × Nat :=
        if request &&& IOC_OUT = 0 then (0, 0) else (data, IOCPARM_LEN request)
      (inSlot, (0, 0), outSlot, (0, 0), 1)

/-- `bsdIoctl_v` command construction (bsd.c lines 608-698): four send
buffer/static pairs from the input slots, then four receive buffer/static
pairs from the output slots, unused slots carrying `(NULL, 0)`.
`sizeof_ifconf` and `sizeof_ifmediareq` are the platform struct sizes. -/
def bsdIoctl_vCommand (sizeof_ifconf sizeof_ifmediareq : Nat) (fd : Int)
    (request : Nat) (arg : IoctlArg) : IpcCommand × RawIoctl :=
  let s := bsdIoctl_vSlots sizeof_ifconf sizeof_ifmediareq request arg
  let in1 := s.1
  let in2 := s.2.1
  let out1 := s.2.2.1
  let out2 := s.2.2.2.1
  let bufcount := s.2.2.2.2
  let c := ipcInitialize
  let c := ipcAddSendBuffer c in1.1 in1.2 0
  let c := ipcAddSendStatic c in1.1 in1.2 0
  let c := ipcAddSendBuffer c in2.1 in2.2 0
  let c := ipcAddSendStatic c in2.1 in2.2 0
  let c := ipcAddSendBuffer c 0 0 0
  let c := ipcAddSendStatic c 0 0 0
  let c := ipcAddSendBuffer c 0 0 0
  let c := ipcAddSendStatic c 0 0 0
  let c := ipcAddRecvBuffer c out1.1 out1.2 0
  let c := ipcAddRecvStatic c out1.1 out1.2 0
  let c := ipcAddRecvBuffer c out2.1 out2.2 0
  let c := ipcAddRecvStatic c out2.1 out2.2 0
  let c := ipcAddRecvBuffer c 0 0 0
  let c := ipcAddRecvStatic c 0 0 0
  let c := ipcAddRecvBuffer c 0 0 0
  let c := ipcAddRecvStatic c 0 0 0
  (c, ⟨SFCI_MAGIC, 19, fd, request, bufcount⟩)

/-- C6: for the interface-list request the second buffer's declared length
(input and output alike) equals the header's embedded `ifc_len` byte
count, and for the two media requests it equals `8 * ifm_count` — derived
from the first buffer's header, not from a fixed constant; varying the
embedded field varies the derived length accordingly. -/
theorem ioctl_second_buffer_len (sizeof_ifconf sizeof_ifmediareq : Nat) (fd : Int)
    (request : Nat) (dc : Ifconf) (dm : Ifmediareq) :
    (bsdIoctl_vCommand sizeof_ifconf sizeof_ifmediareq fd request (.gifconf dc)).1.sendBuffers
        = [⟨dc.addr, sizeof_ifconf, 0⟩, ⟨dc.ifc_req, dc.ifc_len, 0⟩, ⟨0, 0, 0⟩, ⟨0, 0, 0⟩] ∧
      (bsdIoctl_vCommand sizeof_ifconf sizeof_ifmediareq fd request (.gifconf dc)).1.recvBuffers
        = [⟨dc.addr, sizeof_ifconf, 0⟩, ⟨dc.ifc_req, dc.ifc_len, 0⟩, ⟨0, 0, 0⟩, ⟨0, 0, 0⟩] ∧
      (bsdIoctl_vCommand sizeof_ifconf sizeof_ifmediareq fd request (.gifmedia dm)).1.sendBuffers
        = [⟨dm.addr, sizeof_ifmediareq, 0⟩, ⟨dm.ifm_ulist, 8 * dm.ifm_count, 0⟩,
           ⟨0, 0, 0⟩, ⟨0, 0, 0⟩] ∧
      (bsdIoctl_vCommand sizeof_ifconf sizeof_ifmediareq fd request (.gifmedia dm)).1.recvBuffers
        = [⟨dm.addr, sizeof_ifmediareq, 0⟩, ⟨dm.ifm_ulist, 8 * dm.ifm_count, 0⟩,
           ⟨0, 0, 0⟩, ⟨0, 0, 0⟩] ∧
      (bsdIoctl_vCommand sizeof_ifconf sizeof_ifmediareq fd request (.gifxmedia dm)).1.sendBuffers
        = [⟨dm.addr, sizeof_ifmediareq, 0⟩, ⟨dm.ifm_ulist, 8 * dm.ifm_count, 0⟩,
           ⟨0, 0, 0⟩, ⟨0, 0, 0⟩] ∧
      (bsdIoctl_vCommand sizeof_ifconf sizeof_ifmediareq fd request (.gifxmedia dm)).1.recvBuffers
        = [⟨dm.addr, sizeof_ifmediareq, 0⟩, ⟨dm.ifm_ulist, 8 * dm.ifm_count, 0⟩,
           ⟨0, 0, 0⟩, ⟨0, 0, 0⟩] :=
  ⟨rfl, rfl, rfl, rfl, rfl, rfl⟩

/-- `F_GETFL` as defined by the C library `fcntl.h` the file compiles
against. -/
def F_GETFL : Int := 3

/-- `F_SETFL` as defined by the C library `fcntl.h`. -/
def F_SETFL : Int := 4

/-- Raw header of `bsdFnctl_v`:
`{magic; cmd_id; int fd; int cmd; int arg;}`. -/
structure RawFnctl where
  magic : Nat
  cmd_id : Nat
  fd : Int
  cmd : Int
  arg : Int
deriving DecidableEq

/-- What `bsdFnctl_v` does with a request: either return locally (value
plus the `errno` it stores) without any transport dispatch, or build a
buffer-less command with the given raw header and dispatch it. -/
inductive FnctlAction where
  | localReturn (ret e : Int)
  | dispatch (raw : RawFnctl)
deriving DecidableEq

/-- `bsdFnctl_v` (bsd.c lines 712-743).  `vararg` is the `int` that
`va_arg` would yield; the source reads it only in the `cmd == F_SETFL`
branch, which sits below the `F_GETFL || F_SETFL` rejection and is
therefore unreachable. -/
def bsdFnctl_v (fd : Int) (cmd : Int) (vararg : Int) : FnctlAction :=
  if cmd = F_GETFL ∨ cmd = F_SETFL then .localReturn (-1) 0
  else
    let arg := if cmd = F_SETFL then vararg else 0
    .dispatch ⟨SFCI_MAGIC, 20, fd, cmd, arg⟩

/-- C8: for every descriptor and variadic word, `bsdFnctl_v` with
`F_GETFL` or `F_SETFL` returns `-1` locally with `errno` cleared to `0`,
performing no transport dispatch. -/
theorem bsdFnctl_flags_rejected_locally (fd vararg : Int) :
    bsdFnctl_v fd F_GETFL vararg = .localReturn (-1) 0 ∧
      bsdFnctl_v fd F_SETFL vararg = .localReturn (-1) 0 := by
  constructor <;> simp [bsdFnctl_v]

/-- C9: for every request code other than the rejected `F_GETFL` and
`F_SETFL`, the dispatched command carries the descriptor, the request code
and a single scalar argument — which is `0` whatever the variadic word
holds, since the only extracting branch (`cmd == F_SETFL`) is unreachable
past the rejection. -/
theorem bsdFnctl_generic_scalar (fd cmd vararg : Int)
    (h1 : cmd ≠ F_GETFL) (h2 : cmd ≠ F_SETFL) :
    bsdFnctl_v fd cmd vararg = .dispatch ⟨SFCI_MAGIC, 20, fd, cmd, 0⟩ := by
  simp [bsdFnctl_v, h1, h2]

/-- Witness for C9 at `F_GETFD` (`cmd = 1`) with a nonzero variadic word:
the sent scalar argument is `0`. -/
theorem bsdFnctl_generic_scalar_witness :
    bsdFnctl_v 5 1 77 = .dispatch ⟨SFCI_MAGIC, 20, 5, 1, 0⟩ :=
  bsdFnctl_generic_scalar 5 1 77 (by decide) (by decide)

end LibnxBsd
